import Mathlib

/-!
# Ticket routing and expiry of the support bot (`main.go`)

A shallow embedding of `src/main/main.go`: the ticket table, the store
operations (`GetTicketByUserID`, `GetTicketByThreadID`, `SaveTicket`), the
sweeper's `FilterExpiredTickets`, the content classifier `forwardMedia` and the
routing function `handler`.

Conventions of the embedding

* Go `int` / `int64` values are `Int`; the platform is taken to be 64-bit, so
  the conversions `int(..)` / `int64(..)` of the source are the identity.
  Arithmetic that can leave the 64-bit range (`time.Duration`) wraps explicitly.
* `time.Time` is an instant counted in nanoseconds (`Int`); `Before` is `<`.
* The table `tickets` is the list of its rows in row order; `user_id` is the
  primary key (`validStore`).
* Everything `handler` does to the outside world is recorded, in order, in a
  trace of `Effect`s; what the outside world answers (clock readings, storage
  failures, the result of thread creation) is supplied by an `Env`.
-/

namespace TicketBot

/-! ## Machine integers and `strconv` -/

/-- Largest `int64`. -/
def maxInt64 : Int := 9223372036854775807

/-- Smallest `int64`. -/
def minInt64 : Int := -9223372036854775808

/-- Membership in the range of a Go `int` on a 64-bit platform. -/
def isInt64 (x : Int) : Prop := minInt64 ≤ x ∧ x ≤ maxInt64

instance (x : Int) : Decidable (isInt64 x) := by
  unfold isInt64; exact inferInstance

/-- Two's-complement wrap-around of a 64-bit signed result. -/
def wrap64 (x : Int) : Int := (x + 9223372036854775808) % 18446744073709551616 - 9223372036854775808

/-- The decimal digit character of `d % 10`. -/
def digitChar (d : Nat) : Char := Char.ofNat (48 + d % 10)

/-- Decimal digits of `n`, most significant first; `fuel` bounds the number of
divisions by ten and `fuel = n` always suffices. -/
def decimal : Nat → Nat → List Char
  | 0, n => [digitChar n]
  | fuel + 1, n => if n < 10 then [digitChar n] else decimal fuel (n / 10) ++ [digitChar n]

/-- Model of `strconv.Itoa`: decimal representation with a leading `-` for negative values. -/
def itoa (i : Int) : String :=
  match i with
  | Int.ofNat n => String.mk (decimal n n)
  | Int.negSucc n => String.mk ('-' :: decimal (n + 1) (n + 1))

/-- Value of a decimal digit character, `none` for any other character. -/
def digitVal (c : Char) : Option Nat :=
  if 48 ≤ c.toNat ∧ c.toNat ≤ 57 then some (c.toNat - 48) else none

/-- Largest `uint64`. -/
def maxUint64 : Nat := 18446744073709551615

/-- Result of scanning the magnitude of a numeral, as `strconv.ParseUint` does. -/
inductive Scan where
  /-- A character that is not a decimal digit, or no character at all. -/
  | syntaxErr
  /-- The digits read so far exceed `uint64`; the scan stops at that digit. -/
  | rangeErr
  /-- All characters are digits and the value fits `uint64`. -/
  | value (n : Nat)
  deriving DecidableEq

/-- Left-to-right accumulation of decimal digits: each character is first checked to be a
digit, then the accumulated value is checked against `uint64`. -/
def parseDigits : List Char → Nat → Scan
  | [], acc => .value acc
  | c :: cs, acc =>
    match digitVal c with
    | none => .syntaxErr
    | some d => if maxUint64 < acc * 10 + d then .rangeErr else parseDigits cs (acc * 10 + d)

/-- Unsigned magnitude of a numeral: at least one character, all of them digits. -/
def parseUint (cs : List Char) : Scan :=
  match cs with
  | [] => .syntaxErr
  | _ :: _ => parseDigits cs 0

/-- Clamp to the `int64` range, as `strconv.ParseInt` does on a range error. -/
def clamp64 (x : Int) : Int :=
  if x < minInt64 then minInt64 else if maxInt64 < x then maxInt64 else x

/-- Model of the value returned by `strconv.Atoi` (the error is discarded by
every caller in `main.go`): an optional sign followed by decimal digits; `0` on
a syntax error, the nearest `int64` bound on a range error (also when the digits
that overflow `uint64` are followed by other characters: the scan stops there). -/
def atoi (s : String) : Int :=
  match s.data with
  | [] => 0
  | c :: cs =>
    let neg := c == '-'
    let body := if c == '-' || c == '+' then cs else c :: cs
    match parseUint body with
    | .syntaxErr => 0
    | .rangeErr => if neg then minInt64 else maxInt64
    | .value n => clamp64 (if neg then -(n : Int) else (n : Int))

/-! ## Data model -/

/-- An instant of `time.Time`, in nanoseconds. -/
abbrev Time := Int

/-- The zero value of `time.Time` (1 January of year 1, UTC) on the nanosecond scale
whose origin is the Unix epoch. -/
def zeroTime : Time := -62135596800000000000

/-- The struct `Ticket` (lines 19-24); also one row of the table `tickets`. -/
structure Ticket where
  UserID : String
  UserChatID : String
  ThreadID : String
  LastUpdate : Time
  deriving DecidableEq

/-- The struct `Config` (lines 28-33). -/
structure Config where
  Token : String
  ChatID : Int
  FirstMessage : String
  ExpiryDay : Int
  deriving DecidableEq

/-- The variable `defaultConfig` before `LoadConfig` replaces it (lines 35-40). -/
def defaultConfig : Config :=
  { Token := "TOKEN_TG_BOT", ChatID := 1, FirstMessage := "Приветствие", ExpiryDay := 15 }

/-- Modelled from the spec: the sender of an inbound message event (`models.User` of the
transport library, whose declaration is not among the sources); only the fields read by
`handler`. -/
structure User where
  ID : Int
  IsBot : Bool
  Username : String
  deriving DecidableEq

/-- Modelled from the spec: the origin chat of an inbound message (`models.Chat`). -/
structure Chat where
  ID : Int
  deriving DecidableEq

/-- Modelled from the spec: one size of a photo attachment (`models.PhotoSize`). -/
structure PhotoSize where
  FileID : String
  deriving DecidableEq

/-- Modelled from the spec: a document attachment (`models.Document`). -/
structure Document where
  FileID : String
  deriving DecidableEq

/-- Modelled from the spec: a caption formatting entity (`models.MessageEntity`), with the
seven fields that `handler` copies. -/
structure MessageEntity where
  /-- The field `Type` of the source (a reserved word here). -/
  EntityType : String
  Offset : Int
  Length : Int
  URL : String
  User : Option User
  Language : String
  CustomEmojiID : String
  deriving DecidableEq

/-- Modelled from the spec: the inbound message payload (`models.Message`): sender (a
pointer, hence optional), origin chat, thread identity, text, photo list, optional
document, caption and caption entities. -/
structure Message where
  From : Option User
  Chat : Chat
  MessageThreadID : Int
  Text : String
  Photo : List PhotoSize
  Document : Option Document
  Caption : String
  CaptionEntities : List MessageEntity
  deriving DecidableEq

/-- Modelled from the spec: an inbound event (`models.Update`); the payload is a pointer. -/
structure Update where
  Message : Option Message
  deriving DecidableEq

/-- Modelled from the spec: the result of thread creation (`models.ForumTopic`). -/
structure ForumTopic where
  MessageThreadID : Int
  deriving DecidableEq

/-- Modelled from the spec: parameters of the outbound send-text operation
(`bot.SendMessageParams`); a field the caller leaves out holds its zero value. -/
structure SendMessageParams where
  ChatID : Int
  Text : String
  MessageThreadID : Int
  deriving DecidableEq

/-- Modelled from the spec: parameters of the outbound send-photo operation
(`bot.SendPhotoParams`); `Photo` is the `Data` of the `InputFileString`. -/
structure SendPhotoParams where
  ChatID : Int
  Photo : String
  MessageThreadID : Int
  Caption : String
  CaptionEntities : List MessageEntity
  deriving DecidableEq

/-- Modelled from the spec: parameters of the outbound send-document operation
(`bot.SendDocumentParams`). -/
structure SendDocumentParams where
  ChatID : Int
  Document : String
  MessageThreadID : Int
  Caption : String
  CaptionEntities : List MessageEntity
  deriving DecidableEq

/-- Modelled from the spec: parameters of create-discussion-thread
(`bot.CreateForumTopicParams`). -/
structure CreateForumTopicParams where
  ChatID : Int
  Name : String
  deriving DecidableEq

/-- One call that `handler` makes to the outside world, tagged by its call site. -/
inductive Effect where
  /-- The call `b.SendMessage` of line 225 (answer to `/start`). -/
  | startReply (p : SendMessageParams)
  /-- The call `b.SendPhoto` of lines 253 and 335. -/
  | forwardPhoto (p : SendPhotoParams)
  /-- The call `b.SendDocument` of lines 266 and 349. -/
  | forwardDocument (p : SendDocumentParams)
  /-- The call `b.SendMessage` of lines 278 and 362. -/
  | forwardText (p : SendMessageParams)
  /-- The call `b.SendMessage` of line 372 (first-contact greeting). -/
  | greeting (p : SendMessageParams)
  /-- The call `b.CreateForumTopic` of line 298. -/
  | createForumTopic (p : CreateForumTopicParams)
  /-- The call `SaveTicket(db, ticket)` of lines 285, 310 and 370. -/
  | saveTicket (t : Ticket)
  deriving DecidableEq

/-- What the outside world answers during one invocation of `handler`. -/
structure Env where
  /-- The `QueryRow(..).Scan(..)` of the lookup fails in the storage layer
  (an error other than `sql.ErrNoRows`). -/
  queryErr : Bool
  /-- The pointer returned by `b.CreateForumTopic` (`none` is `nil`). The accompanying
  error is only printed by the source and is not part of the model. -/
  topic : Option ForumTopic
  /-- The value of `time.Now()` read by the first `SaveTicket` executed. -/
  now1 : Time
  /-- The `db.Exec` of the first `SaveTicket` executed fails. -/
  execErr1 : Bool
  /-- The value of `time.Now()` read by the second `SaveTicket` executed. -/
  now2 : Time
  /-- The `db.Exec` of the second `SaveTicket` executed fails. -/
  execErr2 : Bool
  deriving DecidableEq

/-- Errors of the store operations. -/
inductive DbError where
  /-- The error `sql.ErrNoRows`: the query selected no row. -/
  | ErrNoRows
  /-- Any other failure of the storage layer. -/
  | storage
  deriving DecidableEq

/-! ## Ticket store -/

/-- The table `tickets` (lines 86-93), rows in row order. -/
abbrev Store := List Ticket

/-- The constraint `user_id TEXT PRIMARY KEY`: no two rows share a `user_id`. -/
def validStore (db : Store) : Prop := (db.map Ticket.UserID).Nodup

instance (db : Store) : Decidable (validStore db) := by
  unfold validStore; exact inferInstance

/-- The function `GetTicketByUserID` (lines 179-190): the first row `WHERE user_id = ?`, or
`sql.ErrNoRows`; `queryErr` makes the query fail in the storage layer. -/
def GetTicketByUserID (db : Store) (queryErr : Bool) (userID : String) : Except DbError Ticket :=
  if queryErr then .error .storage
  else match db.find? (fun t => t.UserID == userID) with
    | some t => .ok t
    | none => .error .ErrNoRows

/-- The function `GetTicketByThreadID` (lines 192-203): the first row `WHERE thread_id = ?`, or
`sql.ErrNoRows`; `queryErr` makes the query fail in the storage layer. -/
def GetTicketByThreadID (db : Store) (queryErr : Bool) (threadID : String) : Except DbError Ticket :=
  if queryErr then .error .storage
  else match db.find? (fun t => t.ThreadID == threadID) with
    | some t => .ok t
    | none => .error .ErrNoRows

/-- The statement `INSERT .. ON CONFLICT(user_id) DO UPDATE SET ..` of lines 206-213 applied to
the table: the row with the conflicting `user_id` gets the three other columns of `row`,
and without a conflict `row` becomes the last row. -/
def upsert (db : Store) (row : Ticket) : Store :=
  if db.any (fun r => r.UserID == row.UserID) then
    db.map (fun r =>
      if r.UserID == row.UserID then
        { r with UserChatID := row.UserChatID, ThreadID := row.ThreadID, LastUpdate := row.LastUpdate }
      else r)
  else db ++ [row]

/-- The function `SaveTicket` (lines 205-215): the row written has `time.Now()` in `last_update`, whatever
`ticket.LastUpdate` holds; a failing `db.Exec` changes nothing. Returns the table and the error. -/
def SaveTicket (db : Store) (ticket : Ticket) (now : Time) (execErr : Bool) : Store × Option DbError :=
  if execErr then (db, some .storage)
  else (upsert db { UserID := ticket.UserID, UserChatID := ticket.UserChatID,
                    ThreadID := ticket.ThreadID, LastUpdate := now }, none)

/-! ## Expiry sweeper -/

/-- The constant `time.Hour` in nanoseconds. -/
def Hour : Int := 3600000000000

/-- The expression `-time.Duration(expiryDays) * 24 * time.Hour` of line 119, evaluated in
`int64` from left to right. -/
def expiryDuration (expiryDays : Int) : Int :=
  wrap64 (wrap64 (wrap64 (-expiryDays) * 24) * Hour)

/-- The function `FilterExpiredTickets` (lines 117-128); `now` is the value of `time.Now()` read by the call. -/
def FilterExpiredTickets (tickets : List Ticket) (expiryDays : Int) (now : Time) : List Ticket :=
  let cutoff := now + expiryDuration expiryDays
  tickets.foldl (fun expired t => if t.LastUpdate < cutoff then expired ++ [t] else expired) []

/-! ## Router -/

/-- The function `forwardMedia` (lines 379-390) on the message of the update (`handler` calls it only
after its own `nil` check of `update.Message`). -/
def forwardMedia (msg : Message) : Int :=
  if msg.Photo.length > 0 then 0
  else if msg.Document.isSome then 1
  else 3

/-- The call `strings.Replace(s, " ", "", n)` on the characters of `s`: the first `n` spaces are removed. -/
def replaceSpaces : List Char → Nat → List Char
  | [], _ => []
  | c :: cs, 0 => c :: cs
  | c :: cs, n + 1 => if c = ' ' then replaceSpaces cs n else c :: replaceSpaces cs (n + 1)

/-- Lines 294-297 of `handler`: the title of the thread to create. -/
def threadTitle (frm : User) : String :=
  if (replaceSpaces frm.Username.data 9).length = 0 then "TG User: " ++ itoa frm.ID
  else frm.Username

/-- Lines 237-248 and 319-330 of `handler`: the caption entities, copied without `User`. -/
def copyEntities (es : List MessageEntity) : List MessageEntity :=
  es.map (fun k => { EntityType := k.EntityType, Offset := k.Offset, Length := k.Length, URL := k.URL,
                     User := none, Language := k.Language, CustomEmojiID := k.CustomEmojiID })

/-- The `switch forwardMedia(update)` of lines 249-284 and 331-369, sending to `chatID`
(and thread `threadID`; the first copy of the switch leaves `MessageThreadID` out, which is
`threadID = 0`). The calls made, or `none` when indexing the photo list or dereferencing
the document would fail. -/
def forward (chatID threadID : Int) (msg : Message) : Option (List Effect) :=
  let centity := copyEntities msg.CaptionEntities
  if forwardMedia msg = 0 then
    match msg.Photo.getLast? with
    | none => none
    | some ph => some [.forwardPhoto { ChatID := chatID, Photo := ph.FileID, MessageThreadID := threadID,
                                       Caption := msg.Caption, CaptionEntities := centity }]
  else if forwardMedia msg = 1 then
    match msg.Document with
    | none => none
    | some d => some [.forwardDocument { ChatID := chatID, Document := d.FileID, MessageThreadID := threadID,
                                         Caption := msg.Caption, CaptionEntities := centity }]
  else if forwardMedia msg = 3 then
    some [.forwardText { ChatID := chatID, Text := msg.Text, MessageThreadID := threadID }]
  else some []

/-- Result of one invocation of `handler`: the table afterwards, the calls made in order,
and whether the invocation ended in a run-time panic instead of returning. -/
structure Outcome where
  db : Store
  trace : List Effect
  panicked : Bool
  deriving DecidableEq

/-- The text sent in answer to `/start` (line 227). -/
def startText : String := "Укажите свой ник и напишите, с чем вам помочь."

/-- Lines 316-376 of `handler`: forward into the thread of `tick`, re-persist it, and greet
when `find` is false. `pre` holds the calls already made; `now` and `execErr` are the
answers to this `SaveTicket`. -/
def deliver (cfg : Config) (msg : Message) (tick : Ticket) (find : Bool) (db : Store)
    (now : Time) (execErr : Bool) (pre : List Effect) : Outcome :=
  let top := atoi tick.ThreadID
  match forward cfg.ChatID top msg with
  | none => { db := db, trace := pre, panicked := true }
  | some sent =>
    let db1 := (SaveTicket db tick now execErr).1
    let tr := pre ++ sent ++ [.saveTicket tick]
    if !find then
      { db := db1,
        trace := tr ++ [.greeting { ChatID := msg.Chat.ID, Text := cfg.FirstMessage, MessageThreadID := 0 }],
        panicked := false }
    else { db := db1, trace := tr, panicked := false }

/-- Lines 294-312 of `handler` followed by lines 316-376: create the thread, build and
persist the new ticket, then deliver as a first contact. A `nil` result of
`b.CreateForumTopic` is dereferenced at line 306. -/
def firstContact (cfg : Config) (env : Env) (db : Store) (msg : Message) (frm : User) : Outcome :=
  let title := threadTitle frm
  let created := Effect.createForumTopic { ChatID := cfg.ChatID, Name := title }
  match env.topic with
  | none => { db := db, trace := [created], panicked := true }
  | some t =>
    let tick : Ticket :=
      { ThreadID := itoa t.MessageThreadID, UserID := itoa frm.ID,
        UserChatID := itoa msg.Chat.ID, LastUpdate := zeroTime }
    let db1 := (SaveTicket db tick env.now1 env.execErr1).1
    deliver cfg msg tick false db1 env.now2 env.execErr2 [created, .saveTicket tick]

/-- The function `handler` (lines 217-377); `cfg` is the global `defaultConfig`, `db` the table behind
the global `db`. -/
def handler (cfg : Config) (env : Env) (db : Store) (update : Update) : Outcome :=
  match update.Message with
  | none => { db := db, trace := [], panicked := false }
  | some msg =>
    match msg.From with
    | none => { db := db, trace := [], panicked := true }
    | some frm =>
      if frm.IsBot then { db := db, trace := [], panicked := false }
      else if msg.Text = "/start" then
        { db := db,
          trace := [.startReply { ChatID := msg.Chat.ID, Text := startText, MessageThreadID := 0 }],
          panicked := false }
      else if msg.Chat.ID = cfg.ChatID then
        match GetTicketByThreadID db env.queryErr (itoa msg.MessageThreadID) with
        | .error _ => { db := db, trace := [], panicked := false }
        | .ok thread =>
          let a := atoi thread.UserChatID
          match forward a 0 msg with
          | none => { db := db, trace := [], panicked := true }
          | some sent =>
            { db := (SaveTicket db thread env.now1 env.execErr1).1,
              trace := sent ++ [.saveTicket thread],
              panicked := false }
      else
        match GetTicketByUserID db env.queryErr (itoa frm.ID) with
        | .error _ => firstContact cfg env db msg frm
        | .ok tick =>
          if tick.ThreadID = "0" then firstContact cfg env db msg frm
          else deliver cfg msg tick true db env.now1 env.execErr1 []

/-! ## Vocabulary of the claims -/

/-- A forwarded message: one of the three calls of the `switch`. -/
def Effect.isForward : Effect → Bool
  | .forwardPhoto _ => true
  | .forwardDocument _ => true
  | .forwardText _ => true
  | _ => false

/-- An outbound reply: the answer to `/start` or the first-contact greeting. -/
def Effect.isReply : Effect → Bool
  | .startReply _ => true
  | .greeting _ => true
  | _ => false

/-- A thread-creation call. -/
def Effect.isCreateForumTopic : Effect → Bool
  | .createForumTopic _ => true
  | _ => false

/-- A ticket store upsert (`SaveTicket` call). -/
def Effect.isSaveTicket : Effect → Bool
  | .saveTicket _ => true
  | _ => false

/-- Destination chat of a transport call. -/
def Effect.chatID : Effect → Option Int
  | .startReply p => some p.ChatID
  | .forwardPhoto p => some p.ChatID
  | .forwardDocument p => some p.ChatID
  | .forwardText p => some p.ChatID
  | .greeting p => some p.ChatID
  | .createForumTopic p => some p.ChatID
  | .saveTicket _ => none

/-- Thread that a send call is scoped to (`0` is the zero value: no thread given). -/
def Effect.threadID : Effect → Option Int
  | .startReply p => some p.MessageThreadID
  | .forwardPhoto p => some p.MessageThreadID
  | .forwardDocument p => some p.MessageThreadID
  | .forwardText p => some p.MessageThreadID
  | .greeting p => some p.MessageThreadID
  | .createForumTopic _ => none
  | .saveTicket _ => none

/-- Content classification in the words of the specification, as a three-way priority order:
an image attachment is forwarded as an image with caption and caption entities; else a
document attachment is forwarded as a document with caption and entities; else the text field
is forwarded as plain text. The image sent is the last entry of the photo list. -/
def classified (chatID threadID : Int) (msg : Message) : Effect :=
  match msg.Photo.getLast? with
  | some ph =>
    .forwardPhoto { ChatID := chatID, Photo := ph.FileID, MessageThreadID := threadID,
                    Caption := msg.Caption, CaptionEntities := copyEntities msg.CaptionEntities }
  | none =>
    match msg.Document with
    | some d =>
      .forwardDocument { ChatID := chatID, Document := d.FileID, MessageThreadID := threadID,
                         Caption := msg.Caption, CaptionEntities := copyEntities msg.CaptionEntities }
    | none => .forwardText { ChatID := chatID, Text := msg.Text, MessageThreadID := threadID }

/-! ## Sample data -/

/-- A customer without a username. -/
def alice : User := { ID := 42, IsBot := false, Username := "" }

/-- A staff member. -/
def staffer : User := { ID := 7, IsBot := false, Username := "helper" }

/-- Configuration with staff group `-100`. -/
def cfg0 : Config := { Token := "t", ChatID := -100, FirstMessage := "hello", ExpiryDay := 15 }

/-- A text message `hi` of `alice` from her private chat `42`. -/
def customerText : Message :=
  { From := some alice, Chat := { ID := 42 }, MessageThreadID := 0, Text := "hi", Photo := [],
    Document := none, Caption := "", CaptionEntities := [] }

/-- A text message `answer` of `staffer` in thread `5` of the staff group. -/
def staffText : Message :=
  { From := some staffer, Chat := { ID := -100 }, MessageThreadID := 5, Text := "answer", Photo := [],
    Document := none, Caption := "", CaptionEntities := [] }

/-- The ticket of `alice` in thread `5`. -/
def aliceTicket : Ticket := { UserID := "42", UserChatID := "42", ThreadID := "5", LastUpdate := 1000 }

/-- A message of `staffer` in thread `5` of the staff group with a photo in two sizes, a
document and a caption. -/
def staffPhoto : Message :=
  { From := some staffer, Chat := { ID := -100 }, MessageThreadID := 5, Text := "",
    Photo := [{ FileID := "small" }, { FileID := "large" }],
    Document := some { FileID := "doc" }, Caption := "see", CaptionEntities := [] }

/-- The ticket of another customer, in thread `9`. -/
def bobTicket : Ticket := { UserID := "77", UserChatID := "77", ThreadID := "9", LastUpdate := 500 }

/-- An environment without failures: thread creation returns thread `5`, the clock reads
`2000` and then `2001`. -/
def env0 : Env :=
  { queryErr := false, topic := some { MessageThreadID := 5 }, now1 := 2000, execErr1 := false,
    now2 := 2001, execErr2 := false }

/-! ### `Atoi` after `Itoa` -/

theorem digitVal_digitChar (d : Nat) : digitVal (digitChar d) = some (d % 10) := by
  have h : d % 10 < 10 := Nat.mod_lt _ (by decide)
  unfold digitChar
  generalize d % 10 = r at h
  interval_cases r <;> rfl

theorem parseDigits_append (xs ys : List Char) (acc a : Nat)
    (h : parseDigits xs acc = .value a) : parseDigits (xs ++ ys) acc = parseDigits ys a := by
  induction xs generalizing acc with
  | nil =>
    simp only [parseDigits, Scan.value.injEq] at h
    rw [List.nil_append, h]
  | cons c cs ih =>
    simp only [List.cons_append, parseDigits] at h ⊢
    cases hd : digitVal c with
    | none => rw [hd] at h; cases h
    | some d =>
      rw [hd] at h
      simp only at h ⊢
      by_cases ho : maxUint64 < acc * 10 + d
      · rw [if_pos ho] at h; cases h
      · rw [if_neg ho] at h ⊢
        exact ih _ h

theorem parseDigits_decimal (fuel n : Nat) (h : n ≤ fuel) (hmax : n ≤ maxUint64) :
    parseDigits (decimal fuel n) 0 = .value n := by
  induction fuel generalizing n with
  | zero =>
    have hn : n = 0 := by omega
    subst hn
    rfl
  | succ f ih =>
    unfold decimal
    split
    · rename_i hlt
      simp only [parseDigits, digitVal_digitChar, Nat.mod_eq_of_lt hlt, Nat.zero_mul, Nat.zero_add]
      rw [if_neg (by omega)]
    · rename_i hge
      have hdiv : n / 10 ≤ f := by omega
      have hdm : n / 10 ≤ maxUint64 := by omega
      rw [parseDigits_append _ _ _ _ (ih _ hdiv hdm)]
      simp only [parseDigits, digitVal_digitChar]
      have hn : n / 10 * 10 + n % 10 = n := by omega
      rw [hn, if_neg (by omega)]

theorem decimal_digits (fuel n : Nat) : ∀ c ∈ decimal fuel n, ∃ d, c = digitChar d := by
  induction fuel generalizing n with
  | zero => intro c hc; simp [decimal] at hc; exact ⟨n, hc⟩
  | succ f ih =>
    intro c hc
    unfold decimal at hc
    split at hc
    · simp at hc; exact ⟨n, hc⟩
    · rcases List.mem_append.mp hc with h | h
      · exact ih _ c h
      · simp at h; exact ⟨n, h⟩

theorem decimal_ne_nil (fuel n : Nat) : decimal fuel n ≠ [] := by
  cases fuel with
  | zero => simp [decimal]
  | succ f =>
    unfold decimal
    split <;> simp

theorem digitChar_not_sign (d : Nat) : (digitChar d == '-') = false ∧ (digitChar d == '+') = false := by
  have h : d % 10 < 10 := Nat.mod_lt _ (by decide)
  unfold digitChar
  generalize d % 10 = r at h
  interval_cases r <;> decide

/-- Parsing the decimal form of an `int64` gives the number back. -/
theorem atoi_itoa (i : Int) (h : isInt64 i) : atoi (itoa i) = i := by
  obtain ⟨hlo, hhi⟩ := h
  cases i with
  | ofNat n =>
    have hne := decimal_ne_nil n n
    have hp := parseDigits_decimal n n le_rfl (by
      simp only [maxInt64, maxUint64, Int.ofNat_eq_coe] at *; omega)
    have hd := decimal_digits n n
    unfold atoi itoa
    simp only
    cases hdec : decimal n n with
    | nil => exact absurd hdec hne
    | cons c cs =>
      obtain ⟨d, rfl⟩ := hd c (by simp [hdec])
      rw [hdec] at hp
      simp only [digitChar_not_sign, Bool.or_self, Bool.false_eq_true, if_false, parseUint, hp]
      unfold clamp64
      simp only [minInt64, maxInt64, Int.ofNat_eq_coe] at *
      rw [if_neg (by omega), if_neg (by omega)]
  | negSucc n =>
    have hne := decimal_ne_nil (n + 1) (n + 1)
    have hp := parseDigits_decimal (n + 1) (n + 1) le_rfl (by
      simp only [minInt64, maxUint64, Int.negSucc_eq] at *; omega)
    unfold atoi itoa
    simp only
    cases hdec : decimal (n + 1) (n + 1) with
    | nil => exact absurd hdec hne
    | cons c cs =>
      rw [hdec] at hp
      simp only [beq_self_eq_true, Bool.true_or, if_true, parseUint, hp]
      unfold clamp64
      simp only [minInt64, maxInt64, Int.negSucc_eq] at *
      rw [if_neg (by omega), if_neg (by omega)]
      omega

/-! ## Store lemmas -/

theorem upsert_of_absent (db : Store) (row : Ticket) (h : ∀ r ∈ db, r.UserID ≠ row.UserID) :
    upsert db row = db ++ [row] := by
  unfold upsert
  rw [if_neg]
  simp only [List.any_eq_true, beq_iff_eq, not_exists, not_and]
  exact fun r hr => h r hr

theorem upsert_of_present (db : Store) (row : Ticket) (h : ∃ r ∈ db, r.UserID = row.UserID) :
    upsert db row = db.map (fun r =>
      if r.UserID == row.UserID then
        { r with UserChatID := row.UserChatID, ThreadID := row.ThreadID, LastUpdate := row.LastUpdate }
      else r) := by
  unfold upsert
  rw [if_pos]
  simpa only [List.any_eq_true, beq_iff_eq] using h

theorem upsert_map_UserID (db : Store) (row : Ticket) (h : ∃ r ∈ db, r.UserID = row.UserID) :
    (upsert db row).map Ticket.UserID = db.map Ticket.UserID := by
  rw [upsert_of_present db row h, List.map_map]
  apply List.map_congr_left
  intro r _
  simp only [Function.comp]
  split <;> rfl

/-- The primary key survives an upsert. -/
theorem upsert_valid (db : Store) (row : Ticket) (hv : validStore db) : validStore (upsert db row) := by
  by_cases h : ∃ r ∈ db, r.UserID = row.UserID
  · unfold validStore
    rw [upsert_map_UserID db row h]
    exact hv
  · have h2 : ∀ r ∈ db, r.UserID ≠ row.UserID := fun r hr he => h ⟨r, hr, he⟩
    rw [upsert_of_absent db row h2]
    unfold validStore at *
    rw [List.map_append, List.nodup_append]
    refine ⟨hv, by simp, ?_⟩
    intro a ha hb
    simp only [List.map_cons, List.map_nil, List.mem_singleton] at hb
    obtain ⟨r, hr, rfl⟩ := List.mem_map.mp ha
    exact h2 r hr hb

theorem map_filter_other (rs : Store) (row : Ticket) :
    (rs.map (fun r =>
      if r.UserID == row.UserID then
        { r with UserChatID := row.UserChatID, ThreadID := row.ThreadID, LastUpdate := row.LastUpdate }
      else r)).filter (fun r => r.UserID != row.UserID) =
      rs.filter (fun r => r.UserID != row.UserID) := by
  induction rs with
  | nil => rfl
  | cons r rs ih =>
    by_cases hr : r.UserID = row.UserID
    · simp only [List.map_cons, hr, beq_self_eq_true, if_true, List.filter_cons, bne_self_eq_false,
        Bool.false_eq_true, if_false]
      exact ih
    · have hb : (r.UserID == row.UserID) = false := by simpa using hr
      have hn : (r.UserID != row.UserID) = true := by simpa using hr
      simp only [List.map_cons, hb, Bool.false_eq_true, if_false, List.filter_cons, hn, if_true]
      rw [ih]

/-- Rows of other users are untouched by an upsert. -/
theorem upsert_filter_other (db : Store) (row : Ticket) :
    (upsert db row).filter (fun r => r.UserID != row.UserID) =
      db.filter (fun r => r.UserID != row.UserID) := by
  unfold upsert
  split
  · exact map_filter_other db row
  · simp [List.filter_append]

theorem filter_same_of_absent (db : Store) (u : String) (h : ∀ r ∈ db, r.UserID ≠ u) :
    db.filter (fun r => r.UserID == u) = [] := by
  rw [List.filter_eq_nil_iff]
  intro r hr
  simpa using h r hr

theorem map_filter_same (rs : Store) (row : Ticket) (hv : validStore rs)
    (h : ∃ r ∈ rs, r.UserID = row.UserID) :
    (rs.map (fun r =>
      if r.UserID == row.UserID then
        { r with UserChatID := row.UserChatID, ThreadID := row.ThreadID, LastUpdate := row.LastUpdate }
      else r)).filter (fun r => r.UserID == row.UserID) = [row] := by
  induction rs with
  | nil => simp at h
  | cons r rs ih =>
    unfold validStore at hv
    rw [List.map_cons, List.nodup_cons] at hv
    by_cases hr : r.UserID = row.UserID
    · have habs : ∀ x ∈ rs, x.UserID ≠ row.UserID := by
        intro x hx he
        exact hv.1 (List.mem_map.mpr ⟨x, hx, by rw [he, hr]⟩)
      have hmap : rs.map (fun r =>
          if r.UserID == row.UserID then
            { r with UserChatID := row.UserChatID, ThreadID := row.ThreadID,
                     LastUpdate := row.LastUpdate }
          else r) = rs := by
        conv_rhs => rw [← List.map_id rs]
        apply List.map_congr_left
        intro x hx
        simp [habs x hx]
      rw [List.map_cons, hmap]
      have hrow : ({ r with UserChatID := row.UserChatID, ThreadID := row.ThreadID,
                            LastUpdate := row.LastUpdate } : Ticket) = row := by
        cases r; cases row; simp_all
      simp only [hr, beq_self_eq_true, if_true, hrow, List.filter_cons,
        filter_same_of_absent rs row.UserID habs]
    · have hex : ∃ x ∈ rs, x.UserID = row.UserID := by
        obtain ⟨x, hx, he⟩ := h
        rcases List.mem_cons.mp hx with rfl | hx2
        · exact absurd he hr
        · exact ⟨x, hx2, he⟩
      have hb : (r.UserID == row.UserID) = false := by simpa using hr
      simp only [List.map_cons, hb, Bool.false_eq_true, if_false, List.filter_cons]
      exact ih hv.2 hex

/-- After an upsert the table holds exactly one row of that user: the row written. -/
theorem upsert_filter_same (db : Store) (row : Ticket) (hv : validStore db) :
    (upsert db row).filter (fun r => r.UserID == row.UserID) = [row] := by
  by_cases h : ∃ r ∈ db, r.UserID = row.UserID
  · rw [upsert_of_present db row h]
    exact map_filter_same db row hv h
  · have h2 : ∀ r ∈ db, r.UserID ≠ row.UserID := fun r hr he => h ⟨r, hr, he⟩
    rw [upsert_of_absent db row h2, List.filter_append, filter_same_of_absent db _ h2]
    simp

theorem find_UserID_of_mem (db : Store) (t : Ticket) (hv : validStore db) (ht : t ∈ db) :
    db.find? (fun r => r.UserID == t.UserID) = some t := by
  induction db with
  | nil => simp at ht
  | cons r rs ih =>
    unfold validStore at hv
    rw [List.map_cons, List.nodup_cons] at hv
    rcases List.mem_cons.mp ht with rfl | hmem
    · simp
    · have hne : r.UserID ≠ t.UserID := fun he =>
        hv.1 (List.mem_map.mpr ⟨t, hmem, he.symm⟩)
      rw [List.find?_cons_of_neg _ (by simpa using hne)]
      exact ih hv.2 hmem

/-! ## Sweeper lemmas -/

/-- Within 106751 days the duration of line 119 is computed without overflow. -/
theorem expiryDuration_exact (n : Int) (h : -106751 ≤ n ∧ n ≤ 106751) :
    expiryDuration n = -(n * (24 * Hour)) := by
  unfold expiryDuration Hour wrap64
  omega

theorem foldl_append_filter (p : Ticket → Bool) (l acc : List Ticket) :
    l.foldl (fun expired t => if p t then expired ++ [t] else expired) acc = acc ++ l.filter p := by
  induction l generalizing acc with
  | nil => simp
  | cons t ts ih =>
    simp only [List.foldl_cons, List.filter_cons]
    by_cases hp : p t
    · simp [hp, ih]
    · simp [hp, ih]

/-! ## Claims about the store and the sweeper -/

/-- C10: `SaveTicket` is an upsert keyed on `user_id`. On a table that respects the primary key,
saving a ticket and then a second ticket of the same `user_id` (both writes succeeding) leaves
exactly one row of that user, holding the second ticket's `UserChatID` and `ThreadID` and, as
`last_update`, the clock value read by the second call, whatever the caller put in `LastUpdate`;
the rows of all other users are unchanged, and the primary key still holds. -/
theorem SaveTicket_upsert_on_user_id (db : Store) (a b : Ticket) (t1 t2 : Time)
    (hv : validStore db) (hu : a.UserID = b.UserID) :
    (SaveTicket (SaveTicket db a t1 false).1 b t2 false).1.filter (fun r => r.UserID == b.UserID) =
        [{ UserID := b.UserID, UserChatID := b.UserChatID, ThreadID := b.ThreadID, LastUpdate := t2 }] ∧
      (SaveTicket (SaveTicket db a t1 false).1 b t2 false).1.filter (fun r => r.UserID != b.UserID) =
        db.filter (fun r => r.UserID != b.UserID) ∧
      validStore (SaveTicket (SaveTicket db a t1 false).1 b t2 false).1 ∧
      (SaveTicket db a t1 false).2 = none ∧
      (SaveTicket (SaveTicket db a t1 false).1 b t2 false).2 = none := by
  have hv1 : validStore (upsert db (Ticket.mk a.UserID a.UserChatID a.ThreadID t1)) :=
    upsert_valid _ _ hv
  simp only [SaveTicket, Bool.false_eq_true, if_false, and_true]
  refine ⟨?_, ?_, upsert_valid _ _ hv1⟩
  · exact upsert_filter_same _ (Ticket.mk b.UserID b.UserChatID b.ThreadID t2) hv1
  · have h2 := upsert_filter_other (upsert db (Ticket.mk a.UserID a.UserChatID a.ThreadID t1))
      (Ticket.mk b.UserID b.UserChatID b.ThreadID t2)
    have h1 : (upsert db (Ticket.mk a.UserID a.UserChatID a.ThreadID t1)).filter
        (fun r => r.UserID != b.UserID) = db.filter (fun r => r.UserID != b.UserID) := by
      rw [← hu]
      exact upsert_filter_other db (Ticket.mk a.UserID a.UserChatID a.ThreadID t1)
    simp only at h2
    rw [h2, h1]

/-- Witness of C10: the ticket of user `42` is saved twice into a table that already holds it. -/
theorem SaveTicket_upsert_on_user_id_witness :
    validStore [bobTicket, aliceTicket] ∧
      (SaveTicket (SaveTicket [bobTicket, aliceTicket] (Ticket.mk "42" "8" "9" 0) 10 false).1
          (Ticket.mk "42" "43" "6" 0) 20 false).1.filter (fun r => r.UserID == "42") =
        [Ticket.mk "42" "43" "6" 20] ∧
      (SaveTicket (SaveTicket [bobTicket, aliceTicket] (Ticket.mk "42" "8" "9" 0) 10 false).1
          (Ticket.mk "42" "43" "6" 0) 20 false).1 = [bobTicket, Ticket.mk "42" "43" "6" 20] :=
  ⟨by decide,
    (SaveTicket_upsert_on_user_id [bobTicket, aliceTicket] (Ticket.mk "42" "8" "9" 0)
      (Ticket.mk "42" "43" "6" 0) 10 20 (by decide) rfl).1,
    by decide⟩

/-- C5 (as the code has it): for every list of tickets and every `expiryDays` between -106751 and
106751 (the values for which `expiryDays * 24h` fits the 64-bit nanosecond count of
`time.Duration`), `FilterExpiredTickets` returns exactly the tickets of the input, in input
order, whose `LastUpdate` is strictly before `now - expiryDays * 24h`. In particular a ticket
one second before the cutoff is returned, and a ticket at the cutoff or one second after it is
not. -/
theorem FilterExpiredTickets_exact (tickets : List Ticket) (expiryDays : Int) (now : Time)
    (h : -106751 ≤ expiryDays ∧ expiryDays ≤ 106751) :
    FilterExpiredTickets tickets expiryDays now =
        tickets.filter (fun t => decide (t.LastUpdate < now - expiryDays * (24 * Hour))) ∧
      (∀ t ∈ tickets, t.LastUpdate = now - expiryDays * (24 * Hour) - 1000000000 →
        t ∈ FilterExpiredTickets tickets expiryDays now) ∧
      (∀ t, t.LastUpdate = now - expiryDays * (24 * Hour) →
        t ∉ FilterExpiredTickets tickets expiryDays now) ∧
      (∀ t, t.LastUpdate = now - expiryDays * (24 * Hour) + 1000000000 →
        t ∉ FilterExpiredTickets tickets expiryDays now) := by
  have hE : FilterExpiredTickets tickets expiryDays now =
      tickets.filter (fun t => decide (t.LastUpdate < now - expiryDays * (24 * Hour))) := by
    unfold FilterExpiredTickets
    simp only [expiryDuration_exact expiryDays h]
    have hf := foldl_append_filter
      (fun t => decide (t.LastUpdate < now + -(expiryDays * (24 * Hour)))) tickets []
    simp only [decide_eq_true_eq, List.nil_append] at hf
    rw [hf]
    rfl
  refine ⟨hE, ?_, ?_, ?_⟩
  · intro t ht hl
    rw [hE, List.mem_filter]
    refine ⟨ht, ?_⟩
    simp only [decide_eq_true_eq]
    have hl2 : @Eq Int t.LastUpdate (now - expiryDays * (24 * Hour) - 1000000000) := hl
    show @LT.lt Int _ t.LastUpdate (now - expiryDays * (24 * Hour))
    generalize expiryDays * (24 * Hour) = c at hl2 ⊢
    omega
  · intro t hl hmem
    rw [hE, List.mem_filter] at hmem
    have h2 := hmem.2
    simp only [decide_eq_true_eq] at h2
    have hl2 : @Eq Int t.LastUpdate (now - expiryDays * (24 * Hour)) := hl
    have h3 : @LT.lt Int _ t.LastUpdate (now - expiryDays * (24 * Hour)) := h2
    generalize expiryDays * (24 * Hour) = c at hl2 h3
    omega
  · intro t hl hmem
    rw [hE, List.mem_filter] at hmem
    have h2 := hmem.2
    simp only [decide_eq_true_eq] at h2
    have hl2 : @Eq Int t.LastUpdate (now - expiryDays * (24 * Hour) + 1000000000) := hl
    have h3 : @LT.lt Int _ t.LastUpdate (now - expiryDays * (24 * Hour)) := h2
    generalize expiryDays * (24 * Hour) = c at hl2 h3
    omega

/-- Witness of C5: fifteen days, clock at 2 000 000 000 000 000 ns; one ticket is sixteen days
old, the other one day old. -/
theorem FilterExpiredTickets_exact_witness :
    (-106751 ≤ (15 : Int) ∧ (15 : Int) ≤ 106751) ∧
      FilterExpiredTickets
        [{ aliceTicket with LastUpdate := 617600000000000 },
         { aliceTicket with LastUpdate := 1913600000000000 }] 15 2000000000000000 =
        [{ aliceTicket with LastUpdate := 617600000000000 }] := by
  refine ⟨by decide, ?_⟩
  rw [(FilterExpiredTickets_exact _ 15 2000000000000000 (by decide)).1]
  decide

/-- Counterexample to C5 as stated: with `expiryDays = 106752` the duration of line 119 overflows
to a positive value, the cutoff lies in the future, and a ticket updated at the very instant
`now` is returned although it is not before `now - 106752 * 24h`. -/
theorem FilterExpiredTickets_overflow :
    FilterExpiredTickets [{ aliceTicket with LastUpdate := 2000000000000000 }] 106752 2000000000000000 =
        [{ aliceTicket with LastUpdate := 2000000000000000 }] ∧
      ¬ ((2000000000000000 : Int) < 2000000000000000 - 106752 * (24 * Hour)) ∧
      expiryDuration 106752 = 9223371273709551616 := by
  decide

/-- C8 at its failing input: for the username made of ten spaces `strings.Replace(.., 9)` leaves one
space, so the thread is created with the ten spaces as its title and not with `TG User: 42`;
the same happens for a username that is a single tab. -/
theorem threadTitle_ten_spaces :
    (handler cfg0 env0 []
        { Message := some { customerText with
            From := some { ID := 42, IsBot := false, Username := "          " } } }).trace.head? =
        some (.createForumTopic { ChatID := -100, Name := "          " }) ∧
      threadTitle { ID := 42, IsBot := false, Username := "          " } ≠ "TG User: 42" ∧
      threadTitle { ID := 42, IsBot := false, Username := "\t" } = "\t" ∧
      threadTitle { ID := 42, IsBot := false, Username := "         " } = "TG User: 42" := by
  decide

/-! ## Router lemmas -/

/-- The `switch` never fails and makes exactly the call of the classification. -/
theorem forward_eq (chatID threadID : Int) (msg : Message) :
    forward chatID threadID msg = some [classified chatID threadID msg] := by
  unfold forward classified forwardMedia
  cases hp : msg.Photo with
  | nil =>
    cases hd : msg.Document with
    | none => simp
    | some d => simp
  | cons ph rest =>
    have hl : (ph :: rest).getLast? = some ((ph :: rest).getLast (by simp)) :=
      List.getLast?_eq_getLast _ _
    simp [hl]

theorem classified_isForward (chatID threadID : Int) (msg : Message) :
    (classified chatID threadID msg).isForward = true ∧
      (classified chatID threadID msg).isReply = false ∧
      (classified chatID threadID msg).isCreateForumTopic = false ∧
      (classified chatID threadID msg).isSaveTicket = false ∧
      (classified chatID threadID msg).chatID = some chatID ∧
      (classified chatID threadID msg).threadID = some threadID := by
  unfold classified
  cases msg.Photo.getLast? with
  | some ph => simp [Effect.isForward, Effect.isReply, Effect.isCreateForumTopic,
      Effect.isSaveTicket, Effect.chatID, Effect.threadID]
  | none =>
    cases msg.Document with
    | some d => simp [Effect.isForward, Effect.isReply, Effect.isCreateForumTopic,
        Effect.isSaveTicket, Effect.chatID, Effect.threadID]
    | none => simp [Effect.isForward, Effect.isReply, Effect.isCreateForumTopic,
        Effect.isSaveTicket, Effect.chatID, Effect.threadID]

theorem GetTicketByUserID_ok (db : Store) (uid : String) (tick : Ticket) (hv : validStore db)
    (hmem : tick ∈ db) (hu : tick.UserID = uid) : GetTicketByUserID db false uid = .ok tick := by
  unfold GetTicketByUserID
  rw [← hu, find_UserID_of_mem db tick hv hmem]
  rfl

theorem GetTicketByUserID_sound (db : Store) (q : Bool) (uid : String) (tick : Ticket)
    (h : GetTicketByUserID db q uid = .ok tick) : tick ∈ db ∧ tick.UserID = uid := by
  unfold GetTicketByUserID at h
  split at h
  · cases h
  · split at h
    · rename_i t hfind
      cases h
      exact ⟨List.mem_of_find?_eq_some hfind, by simpa using List.find?_some hfind⟩
    · cases h

theorem GetTicketByThreadID_ok (db : Store) (key : String) (tick : Ticket)
    (h : db.find? (fun r => r.ThreadID == key) = some tick) :
    GetTicketByThreadID db false key = .ok tick := by
  unfold GetTicketByThreadID
  rw [h]
  rfl

/-- In the customer branch, a failed lookup or a ticket with thread `0` leads to lines 294-312. -/
theorem handler_eq_firstContact (cfg : Config) (env : Env) (db : Store) (update : Update)
    (msg : Message) (frm : User)
    (hm : update.Message = some msg) (hf : msg.From = some frm) (hb : frm.IsBot = false)
    (hs : msg.Text ≠ "/start") (hc : msg.Chat.ID ≠ cfg.ChatID)
    (hno : env.queryErr = true ∨ ∀ r ∈ db, r.UserID = itoa frm.ID → r.ThreadID = "0") :
    handler cfg env db update = firstContact cfg env db msg frm := by
  simp only [handler, hm, hf, hb, hs, hc, Bool.false_eq_true, if_false]
  cases hres : GetTicketByUserID db env.queryErr (itoa frm.ID) with
  | error e => rfl
  | ok tick =>
    have hsound := GetTicketByUserID_sound db env.queryErr _ tick hres
    rcases hno with hq | hno
    · unfold GetTicketByUserID at hres
      rw [hq] at hres
      simp at hres
    · simp only [hno tick hsound.1 hsound.2, if_true]

/-- Outcome of lines 294-376 when thread creation returns a topic. -/
theorem firstContact_eq (cfg : Config) (env : Env) (db : Store) (msg : Message) (frm : User)
    (t : ForumTopic) (ht : env.topic = some t) :
    firstContact cfg env db msg frm =
      { db := (SaveTicket (SaveTicket db
                (Ticket.mk (itoa frm.ID) (itoa msg.Chat.ID) (itoa t.MessageThreadID) zeroTime)
                env.now1 env.execErr1).1
              (Ticket.mk (itoa frm.ID) (itoa msg.Chat.ID) (itoa t.MessageThreadID) zeroTime)
              env.now2 env.execErr2).1,
        trace := [.createForumTopic (CreateForumTopicParams.mk cfg.ChatID (threadTitle frm)),
                  .saveTicket (Ticket.mk (itoa frm.ID) (itoa msg.Chat.ID) (itoa t.MessageThreadID) zeroTime),
                  classified cfg.ChatID (atoi (itoa t.MessageThreadID)) msg,
                  .saveTicket (Ticket.mk (itoa frm.ID) (itoa msg.Chat.ID) (itoa t.MessageThreadID) zeroTime),
                  .greeting (SendMessageParams.mk msg.Chat.ID cfg.FirstMessage 0)],
        panicked := false } := by
  simp [firstContact, ht, deliver, forward_eq]

/-! ## Claims about the router -/

theorem GetTicketByThreadID_none (db : Store) (q : Bool) (key : String)
    (h : ∀ t ∈ db, t.ThreadID ≠ key) : ∃ e, GetTicketByThreadID db q key = .error e := by
  unfold GetTicketByThreadID
  split
  · exact ⟨_, rfl⟩
  · have : db.find? (fun t => t.ThreadID == key) = none := by
      rw [List.find?_eq_none]
      intro t ht
      simpa using h t ht
    rw [this]
    exact ⟨_, rfl⟩

/-- C4: a non-bot message other than `/start` that arrives in the staff group and whose thread id
is the `thread_id` of no stored ticket makes `handler` return without any call to the
transport or to `SaveTicket`, the table being left as it was. -/
theorem handler_staff_unknown_thread (cfg : Config) (env : Env) (db : Store) (update : Update)
    (msg : Message) (frm : User)
    (hm : update.Message = some msg) (hf : msg.From = some frm) (hb : frm.IsBot = false)
    (hs : msg.Text ≠ "/start") (hc : msg.Chat.ID = cfg.ChatID)
    (hn : ∀ t ∈ db, t.ThreadID ≠ itoa msg.MessageThreadID) :
    handler cfg env db update = { db := db, trace := [], panicked := false } := by
  obtain ⟨e, he⟩ := GetTicketByThreadID_none db env.queryErr _ hn
  simp [handler, hm, hf, hb, hs, hc, he]

/-- Witness of C4: the ticket of `alice` lives in thread `5`, the staff message is in thread `6`. -/
theorem handler_staff_unknown_thread_witness :
    handler cfg0 env0 [aliceTicket] { Message := some { staffText with MessageThreadID := 6 } } =
      { db := [aliceTicket], trace := [], panicked := false } :=
  handler_staff_unknown_thread cfg0 env0 [aliceTicket] _ { staffText with MessageThreadID := 6 }
    staffer rfl rfl rfl (by decide) rfl (by decide)

/-- C1: a message with a payload, a non-bot sender, a text other than `/start` and an origin chat
other than the staff group, whose sender has no stored ticket (or one with `thread_id` `0`),
makes `handler` perform, when thread creation returns topic `t`: one thread-creation call in
the staff group, the persisting of the ticket (sender id, origin chat id, id of `t`), one
forwarded message to the staff group scoped to the thread of `t`, and one greeting with
`FirstMessage` to the origin chat. Provided one of the two writes succeeds, the table then holds
exactly one row of the sender, with these three values, the rows of other users being unchanged. -/
theorem handler_first_contact (cfg : Config) (env : Env) (db : Store) (update : Update)
    (msg : Message) (frm : User) (t : ForumTopic)
    (hm : update.Message = some msg) (hf : msg.From = some frm) (hb : frm.IsBot = false)
    (hs : msg.Text ≠ "/start") (hc : msg.Chat.ID ≠ cfg.ChatID) (hv : validStore db)
    (hno : ∀ r ∈ db, r.UserID = itoa frm.ID → r.ThreadID = "0")
    (ht : env.topic = some t) (hr : isInt64 t.MessageThreadID)
    (hw : env.execErr1 = false ∨ env.execErr2 = false) :
    (handler cfg env db update).trace =
        [.createForumTopic (CreateForumTopicParams.mk cfg.ChatID (threadTitle frm)),
         .saveTicket (Ticket.mk (itoa frm.ID) (itoa msg.Chat.ID) (itoa t.MessageThreadID) zeroTime),
         classified cfg.ChatID t.MessageThreadID msg,
         .saveTicket (Ticket.mk (itoa frm.ID) (itoa msg.Chat.ID) (itoa t.MessageThreadID) zeroTime),
         .greeting (SendMessageParams.mk msg.Chat.ID cfg.FirstMessage 0)] ∧
      (classified cfg.ChatID t.MessageThreadID msg).isForward = true ∧
      (classified cfg.ChatID t.MessageThreadID msg).chatID = some cfg.ChatID ∧
      (classified cfg.ChatID t.MessageThreadID msg).threadID = some t.MessageThreadID ∧
      (handler cfg env db update).db.filter (fun r => r.UserID == itoa frm.ID) =
        [Ticket.mk (itoa frm.ID) (itoa msg.Chat.ID) (itoa t.MessageThreadID)
          (if env.execErr2 then env.now1 else env.now2)] ∧
      (handler cfg env db update).db.filter (fun r => r.UserID != itoa frm.ID) =
        db.filter (fun r => r.UserID != itoa frm.ID) ∧
      (handler cfg env db update).panicked = false := by
  have hcl := classified_isForward cfg.ChatID t.MessageThreadID msg
  rw [handler_eq_firstContact cfg env db update msg frm hm hf hb hs hc (Or.inr hno),
    firstContact_eq cfg env db msg frm t ht, atoi_itoa _ hr]
  refine ⟨rfl, hcl.1, hcl.2.2.2.2.1, hcl.2.2.2.2.2, ?_, ?_, rfl⟩
  · cases h1 : env.execErr1 <;> cases h2 : env.execErr2
    · simp only [SaveTicket, Bool.false_eq_true, if_false]
      exact upsert_filter_same _ (Ticket.mk (itoa frm.ID) (itoa msg.Chat.ID)
        (itoa t.MessageThreadID) env.now2) (upsert_valid _ _ hv)
    · simp only [SaveTicket, Bool.false_eq_true, if_false, if_true]
      exact upsert_filter_same _ (Ticket.mk (itoa frm.ID) (itoa msg.Chat.ID)
        (itoa t.MessageThreadID) env.now1) hv
    · simp only [SaveTicket, Bool.false_eq_true, if_false, if_true]
      exact upsert_filter_same _ (Ticket.mk (itoa frm.ID) (itoa msg.Chat.ID)
        (itoa t.MessageThreadID) env.now2) hv
    · rw [h1, h2] at hw
      simp at hw
  · cases h1 : env.execErr1 <;> cases h2 : env.execErr2
    · simp only [SaveTicket, Bool.false_eq_true, if_false]
      rw [upsert_filter_other _ (Ticket.mk (itoa frm.ID) (itoa msg.Chat.ID)
        (itoa t.MessageThreadID) env.now2)]
      exact upsert_filter_other _ (Ticket.mk (itoa frm.ID) (itoa msg.Chat.ID)
        (itoa t.MessageThreadID) env.now1)
    · simp only [SaveTicket, Bool.false_eq_true, if_false, if_true]
      exact upsert_filter_other _ (Ticket.mk (itoa frm.ID) (itoa msg.Chat.ID)
        (itoa t.MessageThreadID) env.now1)
    · simp only [SaveTicket, Bool.false_eq_true, if_false, if_true]
      exact upsert_filter_other _ (Ticket.mk (itoa frm.ID) (itoa msg.Chat.ID)
        (itoa t.MessageThreadID) env.now2)
    · simp only [SaveTicket, if_true]

/-- Witness of C1: `alice` writes `hi` for the first time; the bystander row is untouched. -/
theorem handler_first_contact_witness :
    (handler cfg0 env0 [bobTicket] (Update.mk (some customerText))).trace =
        [.createForumTopic (CreateForumTopicParams.mk (-100) "TG User: 42"),
         .saveTicket (Ticket.mk "42" "42" "5" zeroTime),
         .forwardText (SendMessageParams.mk (-100) "hi" 5),
         .saveTicket (Ticket.mk "42" "42" "5" zeroTime),
         .greeting (SendMessageParams.mk 42 "hello" 0)] ∧
      (handler cfg0 env0 [bobTicket] (Update.mk (some customerText))).db =
        [bobTicket, Ticket.mk "42" "42" "5" 2001] := by
  have h := handler_first_contact cfg0 env0 [bobTicket] (Update.mk (some customerText))
    customerText alice (ForumTopic.mk 5) rfl rfl rfl (by decide) (by decide) (by decide)
    (by decide) rfl (by decide) (Or.inl rfl)
  exact ⟨h.1.trans (by decide), by decide⟩

/-- C2: a message with a payload, a non-bot sender, a text other than `/start` and an origin chat
other than the staff group, whose sender has a stored ticket with a `thread_id` other than `0`
(the lookup succeeding), makes `handler` send exactly one forwarded message, to the staff group
and scoped to the thread of that ticket, followed by one `SaveTicket` of that ticket: no thread
is created and no greeting is sent. -/
theorem handler_continuing (cfg : Config) (env : Env) (db : Store) (update : Update)
    (msg : Message) (frm : User) (tick : Ticket)
    (hm : update.Message = some msg) (hf : msg.From = some frm) (hb : frm.IsBot = false)
    (hs : msg.Text ≠ "/start") (hc : msg.Chat.ID ≠ cfg.ChatID) (hv : validStore db)
    (hq : env.queryErr = false)
    (hmem : tick ∈ db) (hu : tick.UserID = itoa frm.ID) (h0 : tick.ThreadID ≠ "0") :
    (handler cfg env db update).trace =
        [classified cfg.ChatID (atoi tick.ThreadID) msg, .saveTicket tick] ∧
      (classified cfg.ChatID (atoi tick.ThreadID) msg).isForward = true ∧
      (classified cfg.ChatID (atoi tick.ThreadID) msg).chatID = some cfg.ChatID ∧
      (classified cfg.ChatID (atoi tick.ThreadID) msg).threadID = some (atoi tick.ThreadID) ∧
      (∀ n, isInt64 n → tick.ThreadID = itoa n → atoi tick.ThreadID = n) ∧
      (handler cfg env db update).trace.countP Effect.isCreateForumTopic = 0 ∧
      (handler cfg env db update).trace.countP Effect.isReply = 0 ∧
      (handler cfg env db update).trace.countP Effect.isForward = 1 ∧
      (handler cfg env db update).panicked = false := by
  have hlook := GetTicketByUserID_ok db (itoa frm.ID) tick hv hmem hu
  have hcl := classified_isForward cfg.ChatID (atoi tick.ThreadID) msg
  have hout : handler cfg env db update =
      { db := (SaveTicket db tick env.now1 env.execErr1).1,
        trace := [classified cfg.ChatID (atoi tick.ThreadID) msg, .saveTicket tick],
        panicked := false } := by
    simp [handler, hm, hf, hb, hs, hc, hq, hlook, h0, deliver, forward_eq]
  rw [hout]
  refine ⟨rfl, hcl.1, hcl.2.2.2.2.1, hcl.2.2.2.2.2, ?_, ?_, ?_, ?_, rfl⟩
  · intro n hn he
    rw [he]
    exact atoi_itoa n hn
  · rw [List.countP_cons, List.countP_cons, List.countP_nil, hcl.2.2.1]
    rfl
  · rw [List.countP_cons, List.countP_cons, List.countP_nil, hcl.2.1]
    rfl
  · rw [List.countP_cons, List.countP_cons, List.countP_nil, hcl.1]
    rfl

/-- Witness of C2: `alice`, whose ticket lives in thread `5`, writes `hi`. -/
theorem handler_continuing_witness :
    (handler cfg0 env0 [bobTicket, aliceTicket] (Update.mk (some customerText))).trace =
      [.forwardText (SendMessageParams.mk (-100) "hi" 5), .saveTicket aliceTicket] := by
  have h := handler_continuing cfg0 env0 [bobTicket, aliceTicket] (Update.mk (some customerText))
    customerText alice aliceTicket rfl rfl rfl (by decide) (by decide) (by decide) rfl
    (by decide) (by decide) (by decide)
  exact h.1.trans (by decide)

/-- C3: a non-bot message other than `/start` that arrives in the staff group and whose thread id
is the `thread_id` of a stored ticket (the ticket that the lookup returns, lookup and write
succeeding) makes `handler` send exactly one forwarded message, whose destination chat is the
number written in the ticket's `UserChatID`, and re-persist the ticket: the row of that user
keeps `UserID`, `UserChatID` and `ThreadID` and gets the current time as `LastUpdate`, the other
rows are unchanged; no thread is created and no greeting is sent. -/
theorem handler_staff_reply (cfg : Config) (env : Env) (db : Store) (update : Update)
    (msg : Message) (frm : User) (tick : Ticket)
    (hm : update.Message = some msg) (hf : msg.From = some frm) (hb : frm.IsBot = false)
    (hs : msg.Text ≠ "/start") (hc : msg.Chat.ID = cfg.ChatID) (hv : validStore db)
    (hq : env.queryErr = false) (hx : env.execErr1 = false)
    (hfind : db.find? (fun r => r.ThreadID == itoa msg.MessageThreadID) = some tick) :
    (handler cfg env db update).trace =
        [classified (atoi tick.UserChatID) 0 msg, .saveTicket tick] ∧
      (classified (atoi tick.UserChatID) 0 msg).isForward = true ∧
      (classified (atoi tick.UserChatID) 0 msg).chatID = some (atoi tick.UserChatID) ∧
      (∀ n, isInt64 n → tick.UserChatID = itoa n → atoi tick.UserChatID = n) ∧
      (handler cfg env db update).db.filter (fun r => r.UserID == tick.UserID) =
        [{ tick with LastUpdate := env.now1 }] ∧
      (handler cfg env db update).db.filter (fun r => r.UserID != tick.UserID) =
        db.filter (fun r => r.UserID != tick.UserID) ∧
      (handler cfg env db update).trace.countP Effect.isCreateForumTopic = 0 ∧
      (handler cfg env db update).trace.countP Effect.isReply = 0 ∧
      (handler cfg env db update).trace.countP Effect.isForward = 1 ∧
      (handler cfg env db update).panicked = false := by
  have hlook := GetTicketByThreadID_ok db _ tick hfind
  have hcl := classified_isForward (atoi tick.UserChatID) 0 msg
  have hout : handler cfg env db update =
      { db := upsert db (Ticket.mk tick.UserID tick.UserChatID tick.ThreadID env.now1),
        trace := [classified (atoi tick.UserChatID) 0 msg, .saveTicket tick],
        panicked := false } := by
    simp [handler, hm, hf, hb, hs, hc, hq, hx, hlook, forward_eq, SaveTicket]
  rw [hout]
  refine ⟨rfl, hcl.1, hcl.2.2.2.2.1, ?_, ?_, ?_, ?_, ?_, ?_, rfl⟩
  · intro n hn he
    rw [he]
    exact atoi_itoa n hn
  · exact upsert_filter_same db (Ticket.mk tick.UserID tick.UserChatID tick.ThreadID env.now1) hv
  · exact upsert_filter_other db (Ticket.mk tick.UserID tick.UserChatID tick.ThreadID env.now1)
  · rw [List.countP_cons, List.countP_cons, List.countP_nil, hcl.2.2.1]
    rfl
  · rw [List.countP_cons, List.countP_cons, List.countP_nil, hcl.2.1]
    rfl
  · rw [List.countP_cons, List.countP_cons, List.countP_nil, hcl.1]
    rfl

/-- Witness of C3: `staffer` answers in thread `5`, the thread of the ticket of `alice`. -/
theorem handler_staff_reply_witness :
    (handler cfg0 env0 [bobTicket, aliceTicket] (Update.mk (some staffText))).trace =
        [.forwardText (SendMessageParams.mk 42 "answer" 0), .saveTicket aliceTicket] ∧
      (handler cfg0 env0 [bobTicket, aliceTicket] (Update.mk (some staffText))).db =
        [bobTicket, { aliceTicket with LastUpdate := 2000 }] := by
  have h := handler_staff_reply cfg0 env0 [bobTicket, aliceTicket] (Update.mk (some staffText))
    staffText staffer aliceTicket rfl rfl rfl (by decide) rfl (by decide) rfl rfl (by decide)
  exact ⟨h.1.trans (by decide), by decide⟩

/-- Outcome of lines 294-306 when thread creation returns `nil`. -/
theorem firstContact_nil (cfg : Config) (env : Env) (db : Store) (msg : Message) (frm : User)
    (ht : env.topic = none) :
    firstContact cfg env db msg frm =
      { db := db,
        trace := [.createForumTopic (CreateForumTopicParams.mk cfg.ChatID (threadTitle frm))],
        panicked := true } := by
  simp [firstContact, ht]

/-- The calls of one invocation of `handler` have one of five shapes. -/
theorem handler_trace_shape (cfg : Config) (env : Env) (db : Store) (update : Update) :
    (handler cfg env db update).trace = [] ∨
      (∃ p, (handler cfg env db update).trace = [.startReply p]) ∨
      (∃ c t m k, (handler cfg env db update).trace = [classified c t m, .saveTicket k]) ∨
      (∃ p, (handler cfg env db update).trace = [.createForumTopic p]) ∨
      (∃ p k c t m g, (handler cfg env db update).trace =
        [.createForumTopic p, .saveTicket k, classified c t m, .saveTicket k, .greeting g]) := by
  have hfc : ∀ msg frm, (firstContact cfg env db msg frm).trace =
      [.createForumTopic (CreateForumTopicParams.mk cfg.ChatID (threadTitle frm))] ∨
      ∃ k c t m g, (firstContact cfg env db msg frm).trace =
        [.createForumTopic (CreateForumTopicParams.mk cfg.ChatID (threadTitle frm)),
         .saveTicket k, classified c t m, .saveTicket k, .greeting g] := by
    intro msg frm
    cases ht : env.topic with
    | none => rw [firstContact_nil cfg env db msg frm ht]; exact Or.inl rfl
    | some t => rw [firstContact_eq cfg env db msg frm t ht]; exact Or.inr ⟨_, _, _, _, _, rfl⟩
  rcases hm : update.Message with _ | msg
  · left; simp [handler, hm]
  rcases hf : msg.From with _ | frm
  · left; simp [handler, hm, hf]
  by_cases hb : frm.IsBot = true
  · left; simp [handler, hm, hf, hb]
  by_cases hs : msg.Text = "/start"
  · right; left
    exact ⟨SendMessageParams.mk msg.Chat.ID startText 0, by simp [handler, hm, hf, hb, hs]⟩
  by_cases hc : msg.Chat.ID = cfg.ChatID
  · cases hl : GetTicketByThreadID db env.queryErr (itoa msg.MessageThreadID) with
    | error e => left; simp [handler, hm, hf, hb, hs, hc, hl]
    | ok thread =>
      right; right; left
      exact ⟨atoi thread.UserChatID, 0, msg, thread,
        by simp [handler, hm, hf, hb, hs, hc, hl, forward_eq]⟩
  · have hcases : handler cfg env db update = firstContact cfg env db msg frm ∨
        ∃ tick, (handler cfg env db update).trace =
          [classified cfg.ChatID (atoi tick.ThreadID) msg, .saveTicket tick] := by
      cases hl : GetTicketByUserID db env.queryErr (itoa frm.ID) with
      | error e => left; simp [handler, hm, hf, hb, hs, hc, hl]
      | ok tick =>
        by_cases h0 : tick.ThreadID = "0"
        · left; simp [handler, hm, hf, hb, hs, hc, hl, h0]
        · right
          exact ⟨tick, by simp [handler, hm, hf, hb, hs, hc, hl, h0, deliver, forward_eq]⟩
    rcases hcases with h | ⟨tick, h⟩
    · rw [h]
      rcases hfc msg frm with h2 | ⟨k, c, t, m, g, h2⟩
      · right; right; right; left; exact ⟨_, h2⟩
      · right; right; right; right; exact ⟨_, k, c, t, m, g, h2⟩
    · right; right; left; exact ⟨_, _, _, tick, h⟩

/-- C6: content classification is a three-way priority order, the same in both routing
directions. `forwardMedia` returns `0` when the photo list is non-empty (a document may be
present too), else `1` when a document is present, else `3`, and nothing else. The `switch` then
makes exactly one call: the photo (last entry of the list) with caption and entities, else the
document with caption and entities, else the text field as plain text. A staff-group message
whose ticket is found, and a customer message that is routed, forward exactly that one call. -/
theorem content_classification (cfg : Config) (env : Env) (db : Store) (update : Update)
    (msg : Message) (frm : User) (chatID threadID : Int)
    (hm : update.Message = some msg) (hf : msg.From = some frm) (hb : frm.IsBot = false)
    (hs : msg.Text ≠ "/start") :
    (forwardMedia msg = 0 ∨ forwardMedia msg = 1 ∨ forwardMedia msg = 3) ∧
      (msg.Photo ≠ [] → forwardMedia msg = 0) ∧
      (msg.Photo = [] → msg.Document ≠ none → forwardMedia msg = 1) ∧
      (msg.Photo = [] → msg.Document = none → forwardMedia msg = 3) ∧
      (∀ h : msg.Photo ≠ [], forward chatID threadID msg =
        some [.forwardPhoto (SendPhotoParams.mk chatID (msg.Photo.getLast h).FileID threadID
          msg.Caption (copyEntities msg.CaptionEntities))]) ∧
      (msg.Photo = [] → ∀ d, msg.Document = some d → forward chatID threadID msg =
        some [.forwardDocument (SendDocumentParams.mk chatID d.FileID threadID
          msg.Caption (copyEntities msg.CaptionEntities))]) ∧
      (msg.Photo = [] → msg.Document = none → forward chatID threadID msg =
        some [.forwardText (SendMessageParams.mk chatID msg.Text threadID)]) ∧
      (msg.Chat.ID = cfg.ChatID → ∀ thread,
        GetTicketByThreadID db env.queryErr (itoa msg.MessageThreadID) = .ok thread →
        some ((handler cfg env db update).trace.filter Effect.isForward) =
          forward (atoi thread.UserChatID) 0 msg) ∧
      (msg.Chat.ID ≠ cfg.ChatID → (handler cfg env db update).panicked = false →
        ∃ th, some ((handler cfg env db update).trace.filter Effect.isForward) =
          forward cfg.ChatID th msg) := by
  refine ⟨?_, ?_, ?_, ?_, ?_, ?_, ?_, ?_, ?_⟩
  · unfold forwardMedia
    split
    · exact Or.inl rfl
    · split
      · exact Or.inr (Or.inl rfl)
      · exact Or.inr (Or.inr rfl)
  · intro hp
    unfold forwardMedia
    rw [if_pos (List.length_pos.mpr hp)]
  · intro hp hd
    unfold forwardMedia
    rw [hp, if_neg (by simp), if_pos (Option.isSome_iff_ne_none.mpr hd)]
  · intro hp hd
    unfold forwardMedia
    rw [hp, hd, if_neg (by simp), if_neg (by simp)]
  · intro hp
    rw [forward_eq]
    unfold classified
    rw [List.getLast?_eq_getLast _ hp]
  · intro hp d hd
    rw [forward_eq]
    unfold classified
    rw [hp, hd]
    rfl
  · intro hp hd
    rw [forward_eq]
    unfold classified
    rw [hp, hd]
    rfl
  · intro hc thread hl
    have hcl := classified_isForward (atoi thread.UserChatID) 0 msg
    have hout : (handler cfg env db update).trace =
        [classified (atoi thread.UserChatID) 0 msg, .saveTicket thread] := by
      simp [handler, hm, hf, hb, hs, hc, hl, forward_eq]
    rw [hout, forward_eq, List.filter_cons, List.filter_cons, List.filter_nil, hcl.1]
    rfl
  · intro hc hnp
    have hfilter : ∀ (pre post : List Effect) (c t : Int),
        pre.filter Effect.isForward = [] → post.filter Effect.isForward = [] →
        (pre ++ classified c t msg :: post).filter Effect.isForward = [classified c t msg] := by
      intro pre post c t h1 h2
      rw [List.filter_append, h1, List.filter_cons, (classified_isForward c t msg).1, h2]
      rfl
    have hcases : handler cfg env db update = firstContact cfg env db msg frm ∨
        ∃ tick, (handler cfg env db update).trace =
          [classified cfg.ChatID (atoi tick.ThreadID) msg, .saveTicket tick] := by
      cases hl : GetTicketByUserID db env.queryErr (itoa frm.ID) with
      | error e => left; simp [handler, hm, hf, hb, hs, hc, hl]
      | ok tick =>
        by_cases h0 : tick.ThreadID = "0"
        · left; simp [handler, hm, hf, hb, hs, hc, hl, h0]
        · right
          exact ⟨tick, by simp [handler, hm, hf, hb, hs, hc, hl, h0, deliver, forward_eq]⟩
    rcases hcases with h | ⟨tick, h⟩
    · cases ht : env.topic with
      | none =>
        rw [h, firstContact_nil cfg env db msg frm ht] at hnp
        cases hnp
      | some t =>
        refine ⟨atoi (itoa t.MessageThreadID), ?_⟩
        rw [h, firstContact_eq cfg env db msg frm t ht, forward_eq]
        exact congrArg some (hfilter [_, _] [_, _] _ _ rfl rfl)
    · refine ⟨atoi tick.ThreadID, ?_⟩
      rw [h, forward_eq]
      exact congrArg some (hfilter [] [_] _ _ rfl rfl)

/-- Witness of C6: a staff message that carries both a photo list and a document is forwarded to
the customer as the photo, largest size, and nothing else. -/
theorem content_classification_witness :
    forwardMedia staffPhoto = 0 ∧
      (handler cfg0 env0 [aliceTicket] (Update.mk (some staffPhoto))).trace.filter Effect.isForward =
        [.forwardPhoto (SendPhotoParams.mk 42 "large" 0 "see" [])] := by
  have h := content_classification cfg0 env0 [aliceTicket] (Update.mk (some staffPhoto))
    staffPhoto staffer 42 0 rfl rfl rfl (by decide)
  refine ⟨h.2.1 (by decide), ?_⟩
  have h8 := h.2.2.2.2.2.2.2.1 rfl aliceTicket rfl
  have h5 := h.2.2.2.2.1 (by decide)
  exact Option.some.inj (h8.trans (h5.trans (by decide)))

/-- C7 (as the code has it): one invocation of `handler` makes at most one forwarded message, at
most one reply (answer to `/start` or greeting), at most one thread-creation call, and at most
two `SaveTicket` calls; without a thread creation it makes at most one `SaveTicket` call. -/
theorem handler_effect_bounds (cfg : Config) (env : Env) (db : Store) (update : Update) :
    (handler cfg env db update).trace.countP Effect.isForward ≤ 1 ∧
      (handler cfg env db update).trace.countP Effect.isReply ≤ 1 ∧
      (handler cfg env db update).trace.countP Effect.isCreateForumTopic ≤ 1 ∧
      (handler cfg env db update).trace.countP Effect.isSaveTicket ≤ 2 ∧
      ((handler cfg env db update).trace.countP Effect.isCreateForumTopic = 0 →
        (handler cfg env db update).trace.countP Effect.isSaveTicket ≤ 1) := by
  rcases handler_trace_shape cfg env db update with h | ⟨p, h⟩ | ⟨c, t, m, k, h⟩ | ⟨p, h⟩ |
    ⟨p, k, c, t, m, g, h⟩
  · rw [h]; decide
  · rw [h]
    simp [List.countP_cons, Effect.isForward, Effect.isReply, Effect.isCreateForumTopic,
      Effect.isSaveTicket]
  · have hcl := classified_isForward c t m
    rw [h]
    simp only [List.countP_cons, List.countP_nil, hcl.1, hcl.2.1, hcl.2.2.1, hcl.2.2.2.1]
    simp [Effect.isForward, Effect.isReply, Effect.isCreateForumTopic, Effect.isSaveTicket]
  · rw [h]
    simp [List.countP_cons, Effect.isForward, Effect.isReply, Effect.isCreateForumTopic,
      Effect.isSaveTicket]
  · have hcl := classified_isForward c t m
    rw [h]
    simp only [List.countP_cons, List.countP_nil, hcl.1, hcl.2.1, hcl.2.2.1, hcl.2.2.2.1]
    simp [Effect.isForward, Effect.isReply, Effect.isCreateForumTopic, Effect.isSaveTicket]

/-- Counterexample to C7 as stated: on a first contact `SaveTicket` is called twice (lines 310
and 370). -/
theorem handler_two_upserts :
    (handler cfg0 env0 [] (Update.mk (some customerText))).trace.countP Effect.isSaveTicket = 2 ∧
      ¬ ((handler cfg0 env0 [] (Update.mk (some customerText))).trace.countP
        Effect.isSaveTicket ≤ 1) := by
  decide

/-- Table after the two `SaveTicket` calls of a first contact, one of which succeeds. -/
theorem saveTwice_rows (db : Store) (row : Ticket) (n1 n2 : Time) (e1 e2 : Bool)
    (hv : validStore db) (hw : e1 = false ∨ e2 = false) :
    (SaveTicket (SaveTicket db row n1 e1).1 row n2 e2).1.filter (fun r => r.UserID == row.UserID) =
        [Ticket.mk row.UserID row.UserChatID row.ThreadID (if e2 then n1 else n2)] ∧
      (SaveTicket (SaveTicket db row n1 e1).1 row n2 e2).1.filter (fun r => r.UserID != row.UserID) =
        db.filter (fun r => r.UserID != row.UserID) := by
  cases e1 <;> cases e2
  · simp only [SaveTicket, Bool.false_eq_true, if_false]
    refine ⟨upsert_filter_same _ (Ticket.mk row.UserID row.UserChatID row.ThreadID n2)
      (upsert_valid _ _ hv), ?_⟩
    rw [upsert_filter_other _ (Ticket.mk row.UserID row.UserChatID row.ThreadID n2)]
    exact upsert_filter_other _ (Ticket.mk row.UserID row.UserChatID row.ThreadID n1)
  · simp only [SaveTicket, Bool.false_eq_true, if_false, if_true]
    exact ⟨upsert_filter_same _ (Ticket.mk row.UserID row.UserChatID row.ThreadID n1) hv,
      upsert_filter_other _ (Ticket.mk row.UserID row.UserChatID row.ThreadID n1)⟩
  · simp only [SaveTicket, Bool.false_eq_true, if_false, if_true]
    exact ⟨upsert_filter_same _ (Ticket.mk row.UserID row.UserChatID row.ThreadID n2) hv,
      upsert_filter_other _ (Ticket.mk row.UserID row.UserChatID row.ThreadID n2)⟩
  · simp at hw

/-- The calls of lines 294-376 depend neither on the table nor on the failures of the store. -/
theorem firstContact_trace_indep (cfg : Config) (env env2 : Env) (db db2 : Store) (msg : Message)
    (frm : User) (ht : env2.topic = env.topic) :
    (firstContact cfg env db msg frm).trace = (firstContact cfg env2 db2 msg frm).trace ∧
      (firstContact cfg env db msg frm).panicked = (firstContact cfg env2 db2 msg frm).panicked := by
  cases h : env.topic with
  | none =>
    rw [h] at ht
    simp [firstContact, h, ht]
  | some t =>
    rw [h] at ht
    simp [firstContact, h, ht, deliver, forward_eq]

/-- C9 (as the code has it), for a message with a payload, a non-bot sender and a text other
than `/start`.
(1) In the staff group a failing lookup by thread id, storage error or not-found, makes
`handler` return with no call made and the table unchanged.
(2) In a customer chat a lookup by user id that fails in the storage layer is handled exactly
like a missing ticket, whatever the table holds: when thread creation returns `t` the thread is
created, the new ticket saved, the message forwarded into the thread of `t`, the ticket saved
again and the greeting sent; if a write succeeds the row of the sender is the new ticket (a
stored one is overwritten) and the other rows are unchanged.
(3) When thread creation returns `nil` the invocation ends right after the creation call.
(4) The calls made, and whether the invocation panics, are those of an invocation without the
storage error on any table that holds no ticket of the sender.
(5) An error of an upsert is ignored: calls and panic are those made without the error;
(6) a failing `SaveTicket` leaves the table as it is, and
(7) when every write fails the table after `handler` is unchanged. -/
theorem handler_storage_errors (cfg : Config) (env : Env) (db : Store) (update : Update)
    (msg : Message) (frm : User)
    (hm : update.Message = some msg) (hf : msg.From = some frm) (hb : frm.IsBot = false)
    (hs : msg.Text ≠ "/start") :
    (msg.Chat.ID = cfg.ChatID →
        (env.queryErr = true ∨ ∀ t ∈ db, t.ThreadID ≠ itoa msg.MessageThreadID) →
        handler cfg env db update = { db := db, trace := [], panicked := false }) ∧
      (msg.Chat.ID ≠ cfg.ChatID → env.queryErr = true →
        ∀ t, env.topic = some t → isInt64 t.MessageThreadID →
          handler cfg env db update =
            { db := (SaveTicket (SaveTicket db
                      (Ticket.mk (itoa frm.ID) (itoa msg.Chat.ID) (itoa t.MessageThreadID) zeroTime)
                      env.now1 env.execErr1).1
                    (Ticket.mk (itoa frm.ID) (itoa msg.Chat.ID) (itoa t.MessageThreadID) zeroTime)
                    env.now2 env.execErr2).1,
              trace := [.createForumTopic (CreateForumTopicParams.mk cfg.ChatID (threadTitle frm)),
                        .saveTicket (Ticket.mk (itoa frm.ID) (itoa msg.Chat.ID)
                          (itoa t.MessageThreadID) zeroTime),
                        classified cfg.ChatID t.MessageThreadID msg,
                        .saveTicket (Ticket.mk (itoa frm.ID) (itoa msg.Chat.ID)
                          (itoa t.MessageThreadID) zeroTime),
                        .greeting (SendMessageParams.mk msg.Chat.ID cfg.FirstMessage 0)],
              panicked := false } ∧
          (validStore db → (env.execErr1 = false ∨ env.execErr2 = false) →
            (handler cfg env db update).db.filter (fun r => r.UserID == itoa frm.ID) =
                [Ticket.mk (itoa frm.ID) (itoa msg.Chat.ID) (itoa t.MessageThreadID)
                  (if env.execErr2 then env.now1 else env.now2)] ∧
              (handler cfg env db update).db.filter (fun r => r.UserID != itoa frm.ID) =
                db.filter (fun r => r.UserID != itoa frm.ID))) ∧
      (msg.Chat.ID ≠ cfg.ChatID → env.queryErr = true → env.topic = none →
        handler cfg env db update =
          { db := db,
            trace := [.createForumTopic (CreateForumTopicParams.mk cfg.ChatID (threadTitle frm))],
            panicked := true }) ∧
      (msg.Chat.ID ≠ cfg.ChatID → env.queryErr = true →
        ∀ db2 : Store, (∀ r ∈ db2, r.UserID ≠ itoa frm.ID) →
          (handler cfg env db update).trace =
              (handler cfg { env with queryErr := false } db2 update).trace ∧
            (handler cfg env db update).panicked =
              (handler cfg { env with queryErr := false } db2 update).panicked) ∧
      ((handler cfg env db update).trace =
          (handler cfg { env with execErr1 := false, execErr2 := false } db update).trace ∧
        (handler cfg env db update).panicked =
          (handler cfg { env with execErr1 := false, execErr2 := false } db update).panicked) ∧
      (∀ (k : Ticket) (now : Time), SaveTicket db k now true = (db, some DbError.storage)) ∧
      (env.execErr1 = true → env.execErr2 = true → (handler cfg env db update).db = db) := by
  refine ⟨?_, ?_, ?_, ?_, ?_, ?_, ?_⟩
  · intro hc hq
    rcases hq with hq | hn
    · simp [handler, hm, hf, hb, hs, hc, hq, GetTicketByThreadID]
    · obtain ⟨e, he⟩ := GetTicketByThreadID_none db env.queryErr _ hn
      simp [handler, hm, hf, hb, hs, hc, he]
  · intro hc hq t ht hr
    have hout := handler_eq_firstContact cfg env db update msg frm hm hf hb hs hc (Or.inl hq)
    rw [firstContact_eq cfg env db msg frm t ht, atoi_itoa _ hr] at hout
    refine ⟨hout, ?_⟩
    intro hv hw
    rw [hout]
    exact saveTwice_rows db
      (Ticket.mk (itoa frm.ID) (itoa msg.Chat.ID) (itoa t.MessageThreadID) zeroTime)
      env.now1 env.now2 env.execErr1 env.execErr2 hv hw
  · intro hc hq ht
    rw [handler_eq_firstContact cfg env db update msg frm hm hf hb hs hc (Or.inl hq)]
    exact firstContact_nil cfg env db msg frm ht
  · intro hc hq db2 hno
    rw [handler_eq_firstContact cfg env db update msg frm hm hf hb hs hc (Or.inl hq),
      handler_eq_firstContact cfg { env with queryErr := false } db2 update msg frm hm hf hb hs hc
        (Or.inr (fun r hr he => absurd he (hno r hr)))]
    exact firstContact_trace_indep cfg env { env with queryErr := false } db db2 msg frm rfl
  · simp only [handler, hm, hf, hb, hs, Bool.false_eq_true, if_false]
    by_cases hc : msg.Chat.ID = cfg.ChatID
    · simp only [hc, if_true]
      cases GetTicketByThreadID db env.queryErr (itoa msg.MessageThreadID) with
      | error e => exact ⟨rfl, rfl⟩
      | ok thread => simp [forward_eq]
    · simp only [hc, if_false]
      have hfc := firstContact_trace_indep cfg env
        { env with execErr1 := false, execErr2 := false } db db msg frm rfl
      cases GetTicketByUserID db env.queryErr (itoa frm.ID) with
      | error e => exact hfc
      | ok tick =>
        by_cases h0 : tick.ThreadID = "0"
        · simp only [h0, if_true]
          exact hfc
        · simp [h0, deliver, forward_eq]
  · intro k now
    simp [SaveTicket]
  · intro h1 h2
    simp only [handler, hm, hf, hb, hs, Bool.false_eq_true, if_false]
    by_cases hc : msg.Chat.ID = cfg.ChatID
    · simp only [hc, if_true]
      cases GetTicketByThreadID db env.queryErr (itoa msg.MessageThreadID) with
      | error e => rfl
      | ok thread => simp [forward_eq, SaveTicket, h1]
    · simp only [hc, if_false]
      have hfc : (firstContact cfg env db msg frm).db = db := by
        cases ht : env.topic with
        | none => simp [firstContact, ht]
        | some t => simp [firstContact, ht, deliver, forward_eq, SaveTicket, h1, h2]
      cases GetTicketByUserID db env.queryErr (itoa frm.ID) with
      | error e => exact hfc
      | ok tick =>
        by_cases h0 : tick.ThreadID = "0"
        · simp only [h0, if_true]
          exact hfc
        · simp [h0, deliver, forward_eq, SaveTicket, h1]

/-- Witness of C9: the lookup by thread id fails in the storage layer for a staff message, and
the lookup by user id fails in the storage layer for `alice`, whose ticket is stored. -/
theorem handler_storage_errors_witness :
    handler cfg0 { env0 with queryErr := true } [aliceTicket] (Update.mk (some staffText)) =
        { db := [aliceTicket], trace := [], panicked := false } ∧
      handler cfg0 { env0 with queryErr := true, topic := some (ForumTopic.mk 6) }
          [bobTicket, aliceTicket] (Update.mk (some customerText)) =
        { db := [bobTicket, Ticket.mk "42" "42" "6" 2001],
          trace := [.createForumTopic (CreateForumTopicParams.mk (-100) "TG User: 42"),
                    .saveTicket (Ticket.mk "42" "42" "6" zeroTime),
                    .forwardText (SendMessageParams.mk (-100) "hi" 6),
                    .saveTicket (Ticket.mk "42" "42" "6" zeroTime),
                    .greeting (SendMessageParams.mk 42 "hello" 0)],
          panicked := false } :=
  ⟨(handler_storage_errors cfg0 { env0 with queryErr := true } [aliceTicket]
      (Update.mk (some staffText)) staffText staffer rfl rfl rfl (by decide)).1 rfl (Or.inl rfl),
    ((handler_storage_errors cfg0 { env0 with queryErr := true, topic := some (ForumTopic.mk 6) }
      [bobTicket, aliceTicket] (Update.mk (some customerText)) customerText alice rfl rfl rfl
      (by decide)).2.1 (by decide) rfl (ForumTopic.mk 6) rfl (by decide)).1.trans (by decide)⟩

/-- Counterexample to C9 as stated: when the lookup by user id fails in the storage layer for a
customer whose ticket is stored, `handler` still creates a thread, forwards, greets and rewrites
the ticket; and when the upsert fails for a continuing customer the message has been forwarded
all the same. -/
theorem handler_storage_error_not_abandoned :
    handler cfg0 { env0 with queryErr := true, topic := some (ForumTopic.mk 6) } [aliceTicket]
        (Update.mk (some customerText)) =
        { db := [Ticket.mk "42" "42" "6" 2001],
          trace := [.createForumTopic (CreateForumTopicParams.mk (-100) "TG User: 42"),
                    .saveTicket (Ticket.mk "42" "42" "6" zeroTime),
                    .forwardText (SendMessageParams.mk (-100) "hi" 6),
                    .saveTicket (Ticket.mk "42" "42" "6" zeroTime),
                    .greeting (SendMessageParams.mk 42 "hello" 0)],
          panicked := false } ∧
      handler cfg0 { env0 with execErr1 := true } [aliceTicket] (Update.mk (some customerText)) =
        { db := [aliceTicket],
          trace := [.forwardText (SendMessageParams.mk (-100) "hi" 5), .saveTicket aliceTicket],
          panicked := false } := by
  decide

end TicketBot
